import Mathlib

/-!
Verification development for a GitHub-to-Jira webhook integration service.

The service receives webhook payloads over HTTP, classifies them by the
X-GitHub-Event header, enriches them through the GitHub API and drives a
Jira issue through a small state machine keyed off pull-request actions.

The embedding below mirrors the Go source:
  * webhook payloads are untyped JSON documents (`Json`), read with the
    same comma-ok type-assertion semantics as the Go code (missing or
    wrongly typed fields yield zero values; the one unchecked assertion in
    the source is modelled by `Option`, where `none` is a runtime panic);
  * the two upstream APIs (GitHub, Jira) are oracles: records of functions
    from request parameters to an `Except`-typed reply, one field per
    remote endpoint the code calls;
  * every handler returns a `Trace` of the upstream calls it made, the log
    lines it emitted and the structured commit records it logged, so that
    call-counting properties are stated over the trace.

JSON numbers are modelled as integers (the Go code decodes them as float64
and immediately truncates the only one it uses, the pull-request number,
with int(...); payload numbers in scope are integral).
-/

namespace Integration

/-- Untyped JSON value, the decoding target of json.Unmarshal in Go. -/
inductive Json where
  | null : Json
  | bool : Bool → Json
  | num : Int → Json
  | str : String → Json
  | arr : List Json → Json
  | obj : List (String × Json) → Json
  deriving Repr

/-- Go map indexing m[k] on a decoded JSON object: a missing key yields
the zero value of interface, i.e. nil, modelled as `Json.null`. -/
def lookupJ (o : List (String × Json)) (k : String) : Json :=
  match o.find? (fun p => p.1 == k) with
  | some p => p.2
  | none => Json.null

/-- Checked type assertion v.(string) with comma-ok: default empty string. -/
def asStringD : Json → String
  | Json.str s => s
  | _ => ""

/-- Checked type assertion v.(bool) with comma-ok: default false. -/
def asBoolD : Json → Bool
  | Json.bool b => b
  | _ => false

/-- Checked type assertion v.(float64) with comma-ok: default zero. -/
def asNumD : Json → Int
  | Json.num n => n
  | _ => 0

/-- Unchecked type assertion v.(float64): `none` models the Go panic. -/
def asNum? : Json → Option Int
  | Json.num n => some n
  | _ => none

/-- Checked type assertion v.(map[string]interface) with comma-ok: a failed
assertion yields a nil map, whose reads all give nil, so the default is the
empty association list. -/
def asObjD : Json → List (String × Json)
  | Json.obj fs => fs
  | _ => []

/-- Checked map assertion that keeps the ok flag, for the places where the
Go code distinguishes a nil map (handleRepositoryEvent, extractRepoInfo). -/
def asObj? : Json → Option (List (String × Json))
  | Json.obj fs => some fs
  | _ => none

/-- Checked array assertion ([]interface) with comma-ok. -/
def asArr? : Json → Option (List Json)
  | Json.arr xs => some xs
  | _ => none

/-- strings.TrimPrefix from the Go standard library. -/
def goTrimLeading (s pre : String) : String :=
  if pre.isPrefixOf s then s.drop pre.length else s

/-- strings.Repeat from the Go standard library. -/
def goRepeat (s : String) (n : Nat) : String :=
  String.join (List.replicate n s)

/-! ## GitHub API data (the fields of go-github values the code reads) -/

/-- Pull request metadata, restricted to the getters the code calls. -/
structure PullRequest where
  title : String := ""
  number : Int := 0
  userLogin : String := ""
  state : String := ""
  headRef : String := ""
  baseRef : String := ""
  deriving Repr, DecidableEq

/-- One changed file of a commit or pull request. -/
structure CommitFile where
  filename : String := ""
  additions : Int := 0
  deletions : Int := 0
  status : String := ""
  deriving Repr, DecidableEq

/-- A pull request review; the code only ever counts them. -/
structure Review where
  id : Int := 0
  deriving Repr, DecidableEq

/-- PRDetails from internal/github/types.go. -/
structure PRDetails where
  pullRequest : PullRequest
  files : List CommitFile
  reviews : List Review
  deriving Repr, DecidableEq

/-- Aggregate commit statistics, as read from a RepositoryCommit. -/
structure CommitStats where
  additions : Int := 0
  deletions : Int := 0
  deriving Repr, DecidableEq

/-- RepositoryCommit, restricted to the fields read by the handlers. -/
structure RepositoryCommit where
  files : List CommitFile
  stats : CommitStats
  deriving Repr, DecidableEq

/-- CommitInfo from internal/github/types.go. -/
structure CommitInfo where
  sha : String
  message : String
  author : String
  authorEmail : String
  date : String
  filesChanged : Nat
  additions : Int
  deletions : Int
  repository : String
  branch : String
  diffContent : String
  deriving Repr, DecidableEq

/-- RepoCreationInfo from internal/github/types.go. -/
structure RepoCreationInfo where
  repoName : String
  createdBy : String
  createdAt : String
  description : String
  language : String
  private_ : Bool
  defaultBranch : String
  cloneURL : String
  gitURL : String
  sshURL : String
  deriving Repr, DecidableEq

/-! ## Jira API data -/

/-- PRIssueInfo from internal/jira (the argument of CreatePRIssue). -/
structure PRIssueInfo where
  prNumber : Int
  prTitle : String
  repoName : String
  author : String
  sourceBranch : String
  targetBranch : String
  filesChanged : List String
  prLink : String
  action : String
  deriving Repr, DecidableEq

/-- The issue fields the code sends to the Jira create-issue endpoint. -/
structure IssueData where
  project : String
  issueType : String
  summary : String
  description : String
  labels : List String
  deriving Repr, DecidableEq

/-- A Jira issue as returned by the tracker; the code reads only the key. -/
structure Issue where
  key : String
  deriving Repr, DecidableEq

/-- One workflow transition offered by Jira: an identifier plus the display
name of the destination status (transition.To.Name). -/
structure Transition where
  id : String
  toName : String
  deriving Repr, DecidableEq

/-! ## Upstream oracles and call traces

Each remote endpoint the code can hit is one oracle field; distinct
endpoints (and distinct client methods) are independent fields, reflecting
that separate network calls can fail independently. -/

/-- A call made to the GitHub API, at the granularity of the client
methods of internal/github/client.go (GetPullRequestDetails is embedded
below from its source in terms of the three raw endpoints it wraps). -/
inductive GhCall where
  | getCommitDetails : String → String → GhCall
  | getFileDiff : String → String → GhCall
  | prGet : String → Int → GhCall
  | prListFiles : String → Int → GhCall
  | prListReviews : String → Int → GhCall
  | createHook : String → String → GhCall
  deriving Repr, DecidableEq

/-- A call made to the Jira API (internal/jira client). -/
inductive JiraCall where
  | create : IssueData → JiraCall
  | search : String → Nat → JiraCall
  | getTransitions : String → JiraCall
  | doTransition : String → String → JiraCall
  deriving Repr, DecidableEq

/-- Oracle for the GitHub API: what each remote call would reply. -/
structure GithubOracle where
  getCommitDetails : String → String → Except String RepositoryCommit
  getFileDiff : String → String → Except String String
  prGet : String → Int → Except String PullRequest
  prListFiles : String → Int → Except String (List CommitFile)
  prListReviews : String → Int → Except String (List Review)
  createRepoWebhook : String → String → Except String Unit

/-- Oracle for the Jira API: what each remote call would reply. -/
structure JiraOracle where
  createIssue : IssueData → Except String Issue
  search : String → Nat → Except String (List Issue)
  getTransitions : String → Except String (List Transition)
  doTransition : String → String → Except String Unit

/-- A log line, at the level of the Logger in internal/utils. -/
inductive LogEntry where
  | info : String → LogEntry
  | error : String → LogEntry
  deriving Repr, DecidableEq

/-- True exactly on error-level log lines. -/
def LogEntry.isErr : LogEntry → Bool
  | LogEntry.error _ => true
  | LogEntry.info _ => false

/-- Observable behaviour of a handler invocation: upstream calls in order
per client, log lines in order, and the structured commit records passed
to logDetailedCommit (with their 1-based loop index). -/
structure Trace where
  gcalls : List GhCall := []
  jcalls : List JiraCall := []
  logs : List LogEntry := []
  commits : List (Nat × CommitInfo) := []
  deriving Repr, DecidableEq

/-- Sequential composition of traces. -/
def Trace.app (a b : Trace) : Trace :=
  { gcalls := a.gcalls ++ b.gcalls
    jcalls := a.jcalls ++ b.jcalls
    logs := a.logs ++ b.logs
    commits := a.commits ++ b.commits }

instance : Append Trace := ⟨Trace.app⟩

/-- Trace of a single info log line. -/
def logI (s : String) : Trace := { logs := [LogEntry.info s] }

/-- Trace of a single error log line. -/
def logE (s : String) : Trace := { logs := [LogEntry.error s] }

/-- Trace of a list of log lines. -/
def logsT (ls : List LogEntry) : Trace := { logs := ls }

/-- Trace of a single GitHub API call. -/
def gcallT (c : GhCall) : Trace := { gcalls := [c] }

/-- Trace of a list of GitHub API calls. -/
def gcallsT (cs : List GhCall) : Trace := { gcalls := cs }

/-- Trace of a list of Jira API calls. -/
def jcallsT (cs : List JiraCall) : Trace := { jcalls := cs }

/-- Number of create-issue calls in a Jira trace. -/
def createCount (cs : List JiraCall) : Nat :=
  cs.countP (fun c => match c with | JiraCall.create _ => true | _ => false)

/-- Number of issue-search calls in a Jira trace. -/
def searchCount (cs : List JiraCall) : Nat :=
  cs.countP (fun c => match c with | JiraCall.search _ _ => true | _ => false)

/-- Number of list-transitions calls in a Jira trace; each status-change
attempt (moveToStatus) performs exactly one of these first. -/
def getTransCount (cs : List JiraCall) : Nat :=
  cs.countP (fun c => match c with | JiraCall.getTransitions _ => true | _ => false)

/-- Number of execute-transition calls in a Jira trace. -/
def doTransCount (cs : List JiraCall) : Nat :=
  cs.countP (fun c => match c with | JiraCall.doTransition _ _ => true | _ => false)

/-! ## Jira client (internal/jira, types.go of the jira package) -/

/-- Loop body of moveToStatus: scan the available transitions and execute
the first one whose destination status name equals the target, returning
the calls made and the outcome; no match is the no-transition error. -/
def moveToStatusLoop (o : JiraOracle) (issueKey targetStatus : String) :
    List Transition → List JiraCall × Except String Unit
  | [] => ([], Except.error ("no transition found to status: " ++ targetStatus))
  | t :: ts =>
    if t.toName == targetStatus then
      ([JiraCall.doTransition issueKey t.id], o.doTransition issueKey t.id)
    else
      moveToStatusLoop o issueKey targetStatus ts

/-- moveToStatus from the Jira client: fetch the transitions available on
the issue, then execute the first whose destination name matches. -/
def moveToStatus (o : JiraOracle) (issueKey targetStatus : String) :
    List JiraCall × Except String Unit :=
  match o.getTransitions issueKey with
  | Except.error e => ([JiraCall.getTransitions issueKey], Except.error e)
  | Except.ok transitions =>
    let r := moveToStatusLoop o issueKey targetStatus transitions
    (JiraCall.getTransitions issueKey :: r.1, r.2)

/-- Description body built by CreatePRIssue (the Go raw-string template,
with the current time formatted as 2006-01-02 15:04:05 passed in). -/
def prDescription (now : String) (prInfo : PRIssueInfo) : String :=
  "\n*GitHub PR Details:*\n• Repository: " ++ prInfo.repoName ++
  "\n• PR Number: #" ++ toString prInfo.prNumber ++
  "  \n• Author: " ++ prInfo.author ++
  "\n• Source Branch: " ++ prInfo.sourceBranch ++ " → Target Branch: " ++ prInfo.targetBranch ++
  "\n• PR Link: [View on GitHub|" ++ prInfo.prLink ++ "]\n\n*Files Changed:*\n" ++
  String.intercalate "\n• " prInfo.filesChanged ++
  "\n\n_Created: " ++ now ++ "_\n"

/-- Issue fields assembled by CreatePRIssue: fixed project key REP, type
Task, a PR summary, the description body, and two labels, the static
github-pr label plus the PR-number label pr-N. -/
def issueDataOf (now : String) (prInfo : PRIssueInfo) : IssueData :=
  { project := "REP"
    issueType := "Task"
    summary := "PR #" ++ toString prInfo.prNumber ++ ": " ++ prInfo.prTitle
    description := prDescription now prInfo
    labels := ["github-pr", "pr-" ++ toString prInfo.prNumber] }

/-- CreatePRIssue from the Jira client: create the issue, then attempt the
move to Open_PR, discarding the outcome of that move (the Go code ignores
the return value of moveToStatus here). -/
def CreatePRIssue (o : JiraOracle) (now : String) (prInfo : PRIssueInfo) :
    List JiraCall × Except String Issue :=
  let issueData := issueDataOf now prInfo
  match o.createIssue issueData with
  | Except.error e =>
    ([JiraCall.create issueData],
     Except.error ("failed to create issue in project REP: " ++ e))
  | Except.ok issue =>
    let m := moveToStatus o issue.key "Open_PR"
    (JiraCall.create issueData :: m.1, Except.ok issue)

/-- FindPRIssue from the Jira client: search with a JQL query over the
fixed project key REP and the PR-number label, max one result; zero
matches is an error, otherwise the first match is returned. The repoName
parameter is accepted but never used by the Go code. -/
def FindPRIssue (o : JiraOracle) (repoName : String) (prNumber : Int) :
    List JiraCall × Except String Issue :=
  let jql := "project = \"REP\" AND labels = \"pr-" ++ toString prNumber ++ "\""
  match o.search jql 1 with
  | Except.error e => ([JiraCall.search jql 1], Except.error e)
  | Except.ok issues =>
    match issues with
    | [] => ([JiraCall.search jql 1], Except.error "PR issue not found")
    | i :: _ => ([JiraCall.search jql 1], Except.ok i)

/-- MovePRToMerged from the Jira client: find the issue for the PR, then
move it to Merged_PR; a failed find aborts without a transition attempt. -/
def MovePRToMerged (o : JiraOracle) (repoName : String) (prNumber : Int) :
    List JiraCall × Except String Unit :=
  match FindPRIssue o repoName prNumber with
  | (cs, Except.error e) => (cs, Except.error e)
  | (cs, Except.ok issue) =>
    let m := moveToStatus o issue.key "Merged_PR"
    (cs ++ m.1, m.2)

/-! ## GitHub client (internal/github/client.go) -/

/-- GetPullRequestDetails: three sequential upstream calls (PR metadata,
changed-file list, review list); the first failure aborts the rest and
fails the whole operation. -/
def GetPullRequestDetails (o : GithubOracle) (repoName : String) (prNumber : Int) :
    List GhCall × Except String PRDetails :=
  match o.prGet repoName prNumber with
  | Except.error e =>
    ([GhCall.prGet repoName prNumber], Except.error ("failed to get PR details: " ++ e))
  | Except.ok pr =>
    match o.prListFiles repoName prNumber with
    | Except.error e =>
      ([GhCall.prGet repoName prNumber, GhCall.prListFiles repoName prNumber],
       Except.error ("failed to get PR files: " ++ e))
    | Except.ok prFiles =>
      match o.prListReviews repoName prNumber with
      | Except.error e =>
        ([GhCall.prGet repoName prNumber, GhCall.prListFiles repoName prNumber,
          GhCall.prListReviews repoName prNumber],
         Except.error ("failed to get PR reviews: " ++ e))
      | Except.ok reviews =>
        ([GhCall.prGet repoName prNumber, GhCall.prListFiles repoName prNumber,
          GhCall.prListReviews repoName prNumber],
         Except.ok { pullRequest := pr, files := prFiles, reviews := reviews })

/-! ## Webhook handler environment (internal/handlers) -/

/-- Checked type assertion v.(string) keeping the ok flag, for the one
place the Go code tests it (handleRepositoryEvent). -/
def asStr? : Json → Option String
  | Json.str s => some s
  | _ => none

/-- Ambient collaborators of a WebhookHandler: the GitHub client oracle,
the optional Jira client (nil when Jira configuration is missing) and the
two formattings of the current time the handlers embed in output. -/
structure Env where
  github : GithubOracle
  jira : Option JiraOracle
  nowRFC : String
  nowFmt : String

/-- extractRepoInfo: read repository attributes defensively; the creator
falls back to Unknown only when the sender map is nil. -/
def extractRepoInfo (repo : List (String × Json))
    (sender : Option (List (String × Json))) : RepoCreationInfo :=
  { repoName := asStringD (lookupJ repo "name")
    description := asStringD (lookupJ repo "description")
    language := asStringD (lookupJ repo "language")
    private_ := asBoolD (lookupJ repo "private")
    defaultBranch := asStringD (lookupJ repo "default_branch")
    cloneURL := asStringD (lookupJ repo "clone_url")
    gitURL := asStringD (lookupJ repo "git_url")
    sshURL := asStringD (lookupJ repo "ssh_url")
    createdAt := asStringD (lookupJ repo "created_at")
    createdBy :=
      match sender with
      | none => "Unknown"
      | some s => asStringD (lookupJ s "login") }

/-- logNewRepository: the banner lines emitted for a new repository. -/
def logNewRepository (info : RepoCreationInfo) : List LogEntry :=
  [LogEntry.info ("=" ++ goRepeat "=" 80),
   LogEntry.info "NEW REPOSITORY CREATED!",
   LogEntry.info ("=" ++ goRepeat "=" 80),
   LogEntry.info ("Repository Name: " ++ info.repoName),
   LogEntry.info ("Created By: " ++ info.createdBy),
   LogEntry.info ("Created At: " ++ info.createdAt),
   LogEntry.info ("Description: " ++ info.description),
   LogEntry.info ("Language: " ++ info.language),
   LogEntry.info ("Private: " ++ toString info.private_),
   LogEntry.info ("Default Branch: " ++ info.defaultBranch),
   LogEntry.info ("Clone URL: " ++ info.cloneURL),
   LogEntry.info ("SSH URL: " ++ info.sshURL),
   LogEntry.info ("=" ++ goRepeat "=" 80)]

/-- The statically configured callback URL registered on new repositories. -/
def webhookURL : String := "https://c45078315703.ngrok-free.app/webhook/repo"

/-- handleRepositoryEvent: only action=created is handled; a missing or
non-map repository object is logged and dropped; otherwise the new
repository is logged and a webhook is registered on it, with registration
failure logged and swallowed. -/
def handleRepositoryEvent (env : Env) (payload : List (String × Json)) : Trace :=
  match asStr? (lookupJ payload "action") with
  | none => {}
  | some action =>
    if action != "created" then {}
    else
      match asObj? (lookupJ payload "repository") with
      | none => logE "Invalid repository data in payload"
      | some repo =>
        let sender := asObj? (lookupJ payload "sender")
        let repoInfo := extractRepoInfo repo sender
        logsT (logNewRepository repoInfo) ++
        gcallT (GhCall.createHook repoInfo.repoName webhookURL) ++
        (match env.github.createRepoWebhook repoInfo.repoName webhookURL with
         | Except.error e =>
           logE ("Failed to add webhook to new repo " ++ repoInfo.repoName ++ ": " ++ e)
         | Except.ok _ =>
           logI ("Successfully added webhook to new repo: " ++ repoInfo.repoName))

/-- handlePushEvent (organization scope): summary log only, best-effort
field extraction with empty defaults. -/
def handlePushEvent (payload : List (String × Json)) : Trace :=
  let repoData := asObjD (lookupJ payload "repository")
  let repoName := asStringD (lookupJ repoData "name")
  let pusher := asObjD (lookupJ payload "pusher")
  let pusherName := asStringD (lookupJ pusher "name")
  logI ("Push event detected in repo: " ++ repoName ++ " by " ++ pusherName)

/-- handlePullRequestEvent (organization scope): summary log only,
best-effort field extraction with empty and zero defaults. -/
def handlePullRequestEvent (payload : List (String × Json)) : Trace :=
  let action := asStringD (lookupJ payload "action")
  let prData := asObjD (lookupJ payload "pull_request")
  let title := asStringD (lookupJ prData "title")
  let number := asNumD (lookupJ prData "number")
  logI ("PR event: " ++ action ++ " - #" ++ toString number ++ ": " ++ title)

/-- logDetailedCommit: the log lines emitted for one processed commit. -/
def logDetailedCommit (n : Nat) (ci : CommitInfo) : List LogEntry :=
  [LogEntry.info ("COMMIT #" ++ toString n ++ " DETAILS:"),
   LogEntry.info ("  SHA: " ++ ci.sha),
   LogEntry.info ("  Message: " ++ ci.message),
   LogEntry.info ("  Author: " ++ ci.author ++ " <" ++ ci.authorEmail ++ ">"),
   LogEntry.info ("  Repository: " ++ ci.repository),
   LogEntry.info ("  Branch: " ++ ci.branch),
   LogEntry.info ("  Files Changed: " ++ toString ci.filesChanged),
   LogEntry.info ("  Lines: +" ++ toString ci.additions ++ "/-" ++ toString ci.deletions),
   LogEntry.info "  FILE DIFF CONTENT:",
   LogEntry.info (goRepeat "-" 60),
   LogEntry.info ci.diffContent,
   LogEntry.info (goRepeat "-" 60)]

/-- Trace of logging one commit record: the log lines plus the structured
record itself, so statements can inspect the logged CommitInfo directly. -/
def recordCommit (n : Nat) (ci : CommitInfo) : Trace :=
  { logs := logDetailedCommit n ci, commits := [(n, ci)] }

/-- Per-commit loop of handlePushEventDetailed, carrying the running array
index. A commit entry that is not a map is skipped; a failed commit-detail
call logs and skips that commit; a failed diff call downgrades to the
placeholder string and the commit is still recorded. -/
def pushLoop (env : Env) (repoName branch : String) :
    List Json → Nat → Trace
  | [], _ => {}
  | c :: rest, i =>
    (match c with
     | Json.obj commitData =>
       let commitSHA := asStringD (lookupJ commitData "id")
       let message := asStringD (lookupJ commitData "message")
       let author := asObjD (lookupJ commitData "author")
       let authorName := asStringD (lookupJ author "name")
       let authorEmail := asStringD (lookupJ author "email")
       gcallT (GhCall.getCommitDetails repoName commitSHA) ++
       (match env.github.getCommitDetails repoName commitSHA with
        | Except.error e => logE ("Failed to get commit details: " ++ e)
        | Except.ok commitDetails =>
          gcallT (GhCall.getFileDiff repoName commitSHA) ++
          (let dr : String × Trace :=
            match env.github.getFileDiff repoName commitSHA with
            | Except.error e =>
              ("Diff unavailable", logE ("Failed to get file diff: " ++ e))
            | Except.ok diff => (diff, {})
           dr.2 ++
           recordCommit (i + 1)
             { sha := commitSHA
               message := message
               author := authorName
               authorEmail := authorEmail
               date := env.nowRFC
               filesChanged := commitDetails.files.length
               additions := commitDetails.stats.additions
               deletions := commitDetails.stats.deletions
               repository := repoName
               branch := branch
               diffContent := dr.1 }))
     | _ => {}) ++
    pushLoop env repoName branch rest (i + 1)

/-- handlePushEventDetailed (repository scope): extract push metadata,
require a commits array, then process each commit in array order. -/
def handlePushEventDetailed (env : Env) (payload : List (String × Json)) : Trace :=
  let repoData := asObjD (lookupJ payload "repository")
  let repoName := asStringD (lookupJ repoData "name")
  let ref := asStringD (lookupJ payload "ref")
  let branch := goTrimLeading ref "refs/heads/"
  let pusher := asObjD (lookupJ payload "pusher")
  let pusherName := asStringD (lookupJ pusher "name")
  match asArr? (lookupJ payload "commits") with
  | none => logE "No commits found in push payload"
  | some commits =>
    logI ("DETAILED PUSH EVENT - Repo: " ++ repoName ++ ", Branch: " ++ branch ++
          ", Pusher: " ++ pusherName ++ ", Commits: " ++ toString commits.length) ++
    pushLoop env repoName branch commits 0

/-! ## Detailed pull-request handling (repository scope) -/

/-- The fields extracted at the top of handlePullRequestEventDetailed.
prData is kept because the merged flag is read from it later, inside the
closed branch, exactly as in the source. -/
structure PRFields where
  action : String
  repoName : String
  prNumber : Int
  title : String
  userName : String
  sourceBranch : String
  targetBranch : String
  prURL : String
  prData : List (String × Json)

/-- Field extraction block of handlePullRequestEventDetailed. Every field
is read with a checked assertion except the PR number, whose unchecked
assertion prData[number].(float64) panics when the field is missing or
not a number; that panic is the `none` result. -/
def prExtract (payload : List (String × Json)) : Option PRFields :=
  let action := asStringD (lookupJ payload "action")
  let prData := asObjD (lookupJ payload "pull_request")
  let repoData := asObjD (lookupJ payload "repository")
  let repoName := asStringD (lookupJ repoData "name")
  match asNum? (lookupJ prData "number") with
  | none => none
  | some prNumber =>
    let title := asStringD (lookupJ prData "title")
    let user := asObjD (lookupJ prData "user")
    let userName := asStringD (lookupJ user "login")
    let head := asObjD (lookupJ prData "head")
    let base := asObjD (lookupJ prData "base")
    let sourceBranch := asStringD (lookupJ head "ref")
    let targetBranch := asStringD (lookupJ base "ref")
    let prURL := asStringD (lookupJ prData "html_url")
    some { action := action, repoName := repoName, prNumber := prNumber,
           title := title, userName := userName, sourceBranch := sourceBranch,
           targetBranch := targetBranch, prURL := prURL, prData := prData }

/-- The PRIssueInfo value the handler builds for the Jira integration. -/
def prInfoOf (f : PRFields) (prd : PRDetails) : PRIssueInfo :=
  { prNumber := f.prNumber
    prTitle := f.title
    repoName := f.repoName
    author := f.userName
    sourceBranch := f.sourceBranch
    targetBranch := f.targetBranch
    filesChanged := prd.files.map (fun fl => fl.filename)
    prLink := f.prURL
    action := f.action }

/-- Numbered per-file lines of logDetailedPR. -/
def fileLines : Nat → List CommitFile → List LogEntry
  | _, [] => []
  | i, fl :: fls =>
    LogEntry.info ("    " ++ toString (i + 1) ++ ". " ++ fl.filename ++
      " (+" ++ toString fl.additions ++ "/-" ++ toString fl.deletions ++
      ") [" ++ fl.status ++ "]") :: fileLines (i + 1) fls

/-- logDetailedPR: the log lines emitted for a pull request. -/
def logDetailedPR (action : String) (details : PRDetails) : List LogEntry :=
  let pr := details.pullRequest
  [LogEntry.info ("PULL REQUEST " ++ action.toUpper ++ ":"),
   LogEntry.info ("  Title: " ++ pr.title),
   LogEntry.info ("  Number: #" ++ toString pr.number),
   LogEntry.info ("  Author: " ++ pr.userLogin),
   LogEntry.info ("  State: " ++ pr.state),
   LogEntry.info ("  Source Branch: " ++ pr.headRef),
   LogEntry.info ("  Target Branch: " ++ pr.baseRef),
   LogEntry.info ("  Files Changed: " ++ toString details.files.length),
   LogEntry.info ("  Reviews: " ++ toString details.reviews.length)] ++
  (if details.files.length > 0 then
     LogEntry.info "  CHANGED FILES:" :: fileLines 0 details.files
   else [])

/-- handlePROpened: create the Jira issue for the PR; a create failure is
logged and handling stops; on success the issue key is logged. -/
def handlePROpened (env : Env) (jo : JiraOracle) (prInfo : PRIssueInfo) : Trace :=
  logI ("Creating Jira issue for PR #" ++ toString prInfo.prNumber ++
        " in " ++ prInfo.repoName) ++
  (match CreatePRIssue jo env.nowFmt prInfo with
   | (jc, Except.error e) =>
     jcallsT jc ++ logE ("Failed to create Jira issue: " ++ e)
   | (jc, Except.ok issue) =>
     jcallsT jc ++
     logI ("Created Jira issue: " ++ issue.key ++ " for PR #" ++
           toString prInfo.prNumber ++ " in Open_PR status"))

/-- handlePRMerged: move the tracked issue of the PR to Merged_PR; a
failure (including issue-not-found) is logged and handling stops. -/
def handlePRMerged (env : Env) (jo : JiraOracle) (prInfo : PRIssueInfo) : Trace :=
  logI ("Moving PR #" ++ toString prInfo.prNumber ++ " to Merged_PR status in Jira") ++
  (match MovePRToMerged jo prInfo.repoName prInfo.prNumber with
   | (jc, Except.error e) =>
     jcallsT jc ++ logE ("Failed to move PR to merged: " ++ e)
   | (jc, Except.ok _) =>
     jcallsT jc ++
     logI ("Moved PR #" ++ toString prInfo.prNumber ++ " to Merged_PR status successfully"))

/-- handlePullRequestEventDetailed (repository scope): extract the PR
fields (possibly panicking, `none`), enrich via GetPullRequestDetails
(abandoning on failure), then dispatch on the action when a Jira client
is configured, and finally log the detailed PR. -/
def handlePullRequestEventDetailed (env : Env) (payload : List (String × Json)) :
    Option Trace :=
  match prExtract payload with
  | none => none
  | some f =>
    some
      (logI ("DETAILED PR EVENT - Action: " ++ f.action ++ ", Repo: " ++ f.repoName ++
             ", PR #" ++ toString f.prNumber ++ " by " ++ f.userName) ++
       (match GetPullRequestDetails env.github f.repoName f.prNumber with
        | (gc, Except.error e) =>
          gcallsT gc ++ logE ("Failed to get PR details: " ++ e)
        | (gc, Except.ok prDetails) =>
          let prInfo := prInfoOf f prDetails
          gcallsT gc ++
          (match env.jira with
           | none => {}
           | some jo =>
             if f.action == "opened" then handlePROpened env jo prInfo
             else if f.action == "closed" then
               let merged := asBoolD (lookupJ f.prData "merged")
               if merged then handlePRMerged env jo { prInfo with action := "merged" }
               else {}
             else if f.action == "synchronize" then
               logI ("PR #" ++ toString f.prNumber ++ " updated - keeping existing Jira issue")
             else {}) ++
          logsT (logDetailedPR f.action prDetails)))

/-! ## HTTP entry points -/

/-- An inbound webhook request after the transport layer: the body read
(which can fail), the JSON parse of the body when read succeeds (`none`
when the bytes are not valid JSON), and the X-GitHub-Event header value
(the empty string when the header is absent). -/
structure Request where
  body : Except String (Option Json)
  eventType : String

/-- json.Unmarshal into map[string]interface: not valid JSON is an error,
a JSON object yields its fields, JSON null yields a nil map (read as the
empty document), and any other top-level value is a type mismatch error. -/
def unmarshalMap : Option Json → Except String (List (String × Json))
  | none => Except.error "invalid JSON"
  | some (Json.obj fs) => Except.ok fs
  | some Json.null => Except.ok []
  | some _ => Except.error "cannot unmarshal non-object JSON into a map"

/-- HandleOrgWebhook: reject unreadable bodies, missing event headers and
bodies that do not unmarshal, each with a 400 before any dispatch; then
dispatch by event type and answer 200 regardless of handler outcomes. -/
def HandleOrgWebhook (env : Env) (req : Request) :
    Option (Nat × String) × Trace :=
  match req.body with
  | Except.error e =>
    (some (400, "Invalid request body\n"),
     logE ("Failed to read request body: " ++ e))
  | Except.ok parse =>
    if req.eventType == "" then
      (some (400, "Missing event type\n"), logE "Missing X-GitHub-Event header")
    else
      match unmarshalMap parse with
      | Except.error e =>
        (some (400, "Invalid JSON payload\n"),
         logE ("Failed to parse JSON payload: " ++ e))
      | Except.ok payload =>
        let t : Trace :=
          if req.eventType == "repository" then handleRepositoryEvent env payload
          else if req.eventType == "push" then handlePushEvent payload
          else if req.eventType == "pull_request" then handlePullRequestEvent payload
          else if req.eventType == "ping" then
            logI "Received ping event from GitHub - webhook setup successful!"
          else logI ("Received org-level event: " ++ req.eventType)
        (some (200, "Organization webhook processed successfully"), t)

/-- HandleRepoWebhook: same request validation as the organization entry,
then dispatch to the detailed handlers; when the pull-request handler
panics no response is written at all (`none`). -/
def HandleRepoWebhook (env : Env) (req : Request) :
    Option (Nat × String) × Trace :=
  match req.body with
  | Except.error e =>
    (some (400, "Invalid request body\n"),
     logE ("Failed to read request body: " ++ e))
  | Except.ok parse =>
    if req.eventType == "" then
      (some (400, "Missing event type\n"), logE "Missing X-GitHub-Event header")
    else
      match unmarshalMap parse with
      | Except.error e =>
        (some (400, "Invalid JSON payload\n"),
         logE ("Failed to parse JSON payload: " ++ e))
      | Except.ok payload =>
        let t? : Option Trace :=
          if req.eventType == "push" then some (handlePushEventDetailed env payload)
          else if req.eventType == "pull_request" then
            handlePullRequestEventDetailed env payload
          else if req.eventType == "ping" then
            some (logI "Received ping event from GitHub - repo webhook setup successful!")
          else some (logI ("Received repo-level event: " ++ req.eventType))
        match t? with
        | none => (none, {})
        | some t => (some (200, "Repository webhook processed successfully"), t)

/-! ## Concrete fixtures used by witnesses and counterexamples -/

/-- True exactly on successful Except results. -/
def exOk {α : Type} : Except String α → Bool
  | Except.ok _ => true
  | Except.error _ => false

/-- GitHub oracle where every call succeeds with minimal data. -/
def ghOkEmpty : GithubOracle :=
  { getCommitDetails := fun _ _ => Except.ok { files := [], stats := {} }
    getFileDiff := fun _ _ => Except.ok "diff"
    prGet := fun _ _ => Except.ok {}
    prListFiles := fun _ _ => Except.ok []
    prListReviews := fun _ _ => Except.ok []
    createRepoWebhook := fun _ _ => Except.ok () }

/-- GitHub oracle whose PR-metadata endpoint fails. -/
def ghPRFail : GithubOracle :=
  { ghOkEmpty with prGet := fun _ _ => Except.error "boom" }

/-- GitHub oracle where commit detail succeeds with real statistics but
the diff fetch fails. -/
def ghDiffFail : GithubOracle :=
  { ghOkEmpty with
    getCommitDetails := fun _ _ =>
      Except.ok { files := [{ filename := "a.go" }, { filename := "b.go" }],
                  stats := { additions := 10, deletions := 2 } }
    getFileDiff := fun _ _ => Except.error "rate limited" }

/-- GitHub oracle whose commit-detail endpoint fails. -/
def ghDetailFail : GithubOracle :=
  { ghOkEmpty with getCommitDetails := fun _ _ => Except.error "nope" }

/-- Jira oracle with two transitions to Open_PR, to observe first-match
selection. -/
def jo8 : JiraOracle :=
  { createIssue := fun _ => Except.error "unused"
    search := fun _ _ => Except.ok []
    getTransitions := fun _ =>
      Except.ok [{ id := "4", toName := "Other" },
                 { id := "5", toName := "Open_PR" },
                 { id := "6", toName := "Open_PR" }]
    doTransition := fun _ _ => Except.ok () }

/-- Jira oracle where creation succeeds but the workflow offers no
transition to Open_PR, so the post-create move must fail. -/
def joNoOpenPR : JiraOracle :=
  { createIssue := fun _ => Except.ok { key := "REP-1" }
    search := fun _ _ => Except.ok []
    getTransitions := fun _ => Except.ok [{ id := "2", toName := "In Progress" }]
    doTransition := fun _ _ => Except.ok () }

/-- Jira oracle where every step of both PR flows succeeds. -/
def joHappy : JiraOracle :=
  { createIssue := fun _ => Except.ok { key := "REP-1" }
    search := fun _ _ => Except.ok [{ key := "REP-9" }]
    getTransitions := fun _ =>
      Except.ok [{ id := "7", toName := "Open_PR" }, { id := "8", toName := "Merged_PR" }]
    doTransition := fun _ _ => Except.ok () }

/-- Environment with fixed current-time strings. -/
def mkEnv (gh : GithubOracle) (jo : Option JiraOracle) : Env :=
  { github := gh, jira := jo,
    nowRFC := "2024-05-01T10:00:00Z", nowFmt := "2024-05-01 10:00:00" }

/-- Webhook payload of an opened pull request number 7. -/
def payloadOpened : List (String × Json) :=
  [("action", Json.str "opened"),
   ("pull_request", Json.obj
      [("number", Json.num 7), ("title", Json.str "Add feature"),
       ("user", Json.obj [("login", Json.str "alice")]),
       ("head", Json.obj [("ref", Json.str "feature")]),
       ("base", Json.obj [("ref", Json.str "main")]),
       ("html_url", Json.str "https://example.com/pr/7")]),
   ("repository", Json.obj [("name", Json.str "demo")])]

/-- Webhook payload of a merged (closed, merged=true) pull request 7. -/
def payloadClosedMerged : List (String × Json) :=
  [("action", Json.str "closed"),
   ("pull_request", Json.obj
      [("number", Json.num 7), ("merged", Json.bool true),
       ("title", Json.str "Add feature")]),
   ("repository", Json.obj [("name", Json.str "demo")])]

/-- Webhook payload of a closed-without-merge pull request 7. -/
def payloadClosedUnmerged : List (String × Json) :=
  [("action", Json.str "closed"),
   ("pull_request", Json.obj
      [("number", Json.num 7), ("merged", Json.bool false),
       ("title", Json.str "Add feature")]),
   ("repository", Json.obj [("name", Json.str "demo")])]

/-- Semantically incomplete pull-request payload: the pull_request object
is missing entirely. -/
def payloadNoPR : List (String × Json) := [("action", Json.str "opened")]

/-- Push payload with a single commit. -/
def payloadPush : List (String × Json) :=
  [("repository", Json.obj [("name", Json.str "demo")]),
   ("ref", Json.str "refs/heads/main"),
   ("pusher", Json.obj [("name", Json.str "alice")]),
   ("commits", Json.arr
      [Json.obj [("id", Json.str "abc123"), ("message", Json.str "fix"),
                 ("author", Json.obj [("name", Json.str "alice"),
                                      ("email", Json.str "a@x.io")])]])]

/-- Request carrying a JSON body and event header. -/
def reqOf (j : Json) (ev : String) : Request :=
  { body := Except.ok (some j), eventType := ev }

/-- The extracted fields of payloadOpened. -/
def fOpened : PRFields :=
  { action := "opened", repoName := "demo", prNumber := 7, title := "Add feature",
    userName := "alice", sourceBranch := "feature", targetBranch := "main",
    prURL := "https://example.com/pr/7",
    prData := [("number", Json.num 7), ("title", Json.str "Add feature"),
               ("user", Json.obj [("login", Json.str "alice")]),
               ("head", Json.obj [("ref", Json.str "feature")]),
               ("base", Json.obj [("ref", Json.str "main")]),
               ("html_url", Json.str "https://example.com/pr/7")] }

/-- Empty enrichment result, as produced by ghOkEmpty. -/
def prdEmpty : PRDetails := { pullRequest := {}, files := [], reviews := [] }

/-- Request predicate of the amended C4: structurally invalid requests,
i.e. those the entry points answer with 400 before any dispatch. -/
def badReq (req : Request) : Bool :=
  match req.body with
  | Except.error _ => true
  | Except.ok parse =>
    req.eventType == "" ||
    (match unmarshalMap parse with
     | Except.error _ => true
     | Except.ok _ => false)

/-- The parsed payload a structurally valid request dispatches with. -/
def parsedBody (req : Request) : Except String (List (String × Json)) :=
  match req.body with
  | Except.error e => Except.error e
  | Except.ok parse => unmarshalMap parse

/-! ## Trace lemmas -/

@[simp] theorem Trace.app_gcalls (a b : Trace) : (a ++ b).gcalls = a.gcalls ++ b.gcalls := rfl

@[simp] theorem Trace.app_jcalls (a b : Trace) : (a ++ b).jcalls = a.jcalls ++ b.jcalls := rfl

@[simp] theorem Trace.app_logs (a b : Trace) : (a ++ b).logs = a.logs ++ b.logs := rfl

@[simp] theorem Trace.app_commits (a b : Trace) : (a ++ b).commits = a.commits ++ b.commits := rfl

/-! ## Helper lemmas on the Jira client -/

/-- The transition-resolution loop selects exactly the first transition
whose destination name matches, in the sense of List.find?. -/
theorem moveToStatusLoop_eq_find (o : JiraOracle) (issueKey targetStatus : String)
    (ts : List Transition) :
    moveToStatusLoop o issueKey targetStatus ts =
      match ts.find? (fun t => t.toName == targetStatus) with
      | some t => ([JiraCall.doTransition issueKey t.id], o.doTransition issueKey t.id)
      | none => ([], Except.error ("no transition found to status: " ++ targetStatus)) := by
  induction ts with
  | nil => simp [moveToStatusLoop]
  | cons t ts ih =>
    by_cases h : (t.toName == targetStatus) = true
    · simp [moveToStatusLoop, List.find?, h]
    · rw [Bool.not_eq_true] at h
      simp [moveToStatusLoop, List.find?, h, ih]

/-- The transition-resolution loop never lists transitions itself. -/
theorem getTransCount_moveToStatusLoop (o : JiraOracle) (issueKey targetStatus : String)
    (ts : List Transition) :
    getTransCount (moveToStatusLoop o issueKey targetStatus ts).1 = 0 := by
  rw [moveToStatusLoop_eq_find]
  cases ts.find? (fun t => t.toName == targetStatus) with
  | none => rfl
  | some t => rfl

/-- One call to moveToStatus lists the available transitions exactly once. -/
theorem getTransCount_moveToStatus (o : JiraOracle) (issueKey targetStatus : String) :
    getTransCount (moveToStatus o issueKey targetStatus).1 = 1 := by
  unfold moveToStatus
  cases h : o.getTransitions issueKey with
  | error e => rfl
  | ok ts =>
    have hl := getTransCount_moveToStatusLoop o issueKey targetStatus ts
    simp [getTransCount, List.countP_cons] at hl ⊢
    exact hl

/-- moveToStatus never creates issues. -/
theorem createCount_moveToStatus (o : JiraOracle) (issueKey targetStatus : String) :
    createCount (moveToStatus o issueKey targetStatus).1 = 0 := by
  unfold moveToStatus
  cases h : o.getTransitions issueKey with
  | error e => rfl
  | ok ts =>
    show createCount
      (JiraCall.getTransitions issueKey :: (moveToStatusLoop o issueKey targetStatus ts).1) = 0
    rw [moveToStatusLoop_eq_find]
    cases ts.find? (fun t => t.toName == targetStatus) <;> rfl

/-- moveToStatus never searches for issues. -/
theorem searchCount_moveToStatus (o : JiraOracle) (issueKey targetStatus : String) :
    searchCount (moveToStatus o issueKey targetStatus).1 = 0 := by
  unfold moveToStatus
  cases h : o.getTransitions issueKey with
  | error e => rfl
  | ok ts =>
    show searchCount
      (JiraCall.getTransitions issueKey :: (moveToStatusLoop o issueKey targetStatus ts).1) = 0
    rw [moveToStatusLoop_eq_find]
    cases ts.find? (fun t => t.toName == targetStatus) <;> rfl

/-- FindPRIssue always makes exactly one upstream call, the JQL search
over the fixed project key and the PR-number label. -/
theorem findPRIssue_calls (o : JiraOracle) (repoName : String) (prNumber : Int) :
    (FindPRIssue o repoName prNumber).1 =
      [JiraCall.search ("project = \"REP\" AND labels = \"pr-" ++ toString prNumber ++ "\"") 1] := by
  simp only [FindPRIssue]
  cases h : o.search ("project = \"REP\" AND labels = \"pr-" ++ toString prNumber ++ "\"") 1 with
  | error e => simp [h]
  | ok issues => cases issues <;> simp [h]

/-! ## Helper lemmas on logging -/

/-- The per-file lines of logDetailedPR are all info-level. -/
theorem fileLines_no_err (i : Nat) (fs : List CommitFile) :
    (fileLines i fs).any LogEntry.isErr = false := by
  induction fs generalizing i with
  | nil => rfl
  | cons f fs ih => simp [fileLines, LogEntry.isErr, ih]

/-- logDetailedPR emits only info-level lines. -/
theorem logDetailedPR_no_err (action : String) (details : PRDetails) :
    (logDetailedPR action details).any LogEntry.isErr = false := by
  unfold logDetailedPR
  by_cases h : details.files.length > 0
  · simp [h, LogEntry.isErr, fileLines_no_err]
  · simp [h, LogEntry.isErr]

/-- The transition loop executes the first match of a decomposition. -/
theorem moveToStatusLoop_first (o : JiraOracle) (issueKey targetStatus : String)
    (pre : List Transition) (t : Transition) (post : List Transition)
    (hpre : ∀ u ∈ pre, u.toName ≠ targetStatus) (ht : t.toName = targetStatus) :
    moveToStatusLoop o issueKey targetStatus (pre ++ t :: post) =
      ([JiraCall.doTransition issueKey t.id], o.doTransition issueKey t.id) := by
  induction pre with
  | nil => simp [moveToStatusLoop, ht]
  | cons u pre ih =>
    have hu : u.toName ≠ targetStatus := hpre u (by simp)
    simp only [List.cons_append, moveToStatusLoop, beq_iff_eq, if_neg hu]
    exact ih (fun v hv => hpre v (by simp [hv]))

/-- The transition loop performs nothing when no destination matches. -/
theorem moveToStatusLoop_none (o : JiraOracle) (issueKey targetStatus : String)
    (ts : List Transition) (h : ∀ u ∈ ts, u.toName ≠ targetStatus) :
    moveToStatusLoop o issueKey targetStatus ts =
      ([], Except.error ("no transition found to status: " ++ targetStatus)) := by
  induction ts with
  | nil => rfl
  | cons u ts ih =>
    have hu : u.toName ≠ targetStatus := h u (by simp)
    simp only [moveToStatusLoop, beq_iff_eq, if_neg hu]
    exact ih (fun v hv => h v (by simp [hv]))

/-- The detailed pull-request handler panics exactly when the unchecked
number assertion does. -/
theorem handlePRDetailed_none_iff (env : Env) (payload : List (String × Json)) :
    handlePullRequestEventDetailed env payload = none ↔ prExtract payload = none := by
  unfold handlePullRequestEventDetailed
  cases prExtract payload with
  | none => simp
  | some f => simp

/-- Behaviour of the merged-PR composite per find outcome: a failed find
makes the single search call only; a successful find continues with the
transition attempt on the found issue. -/
theorem movePRToMerged_eq (o : JiraOracle) (r : String) (n : Int) :
    (∀ e, (FindPRIssue o r n).2 = Except.error e →
      MovePRToMerged o r n =
        ([JiraCall.search ("project = \"REP\" AND labels = \"pr-" ++ toString n ++ "\"") 1],
         Except.error e)) ∧
    (∀ issue, (FindPRIssue o r n).2 = Except.ok issue →
      MovePRToMerged o r n =
        (JiraCall.search ("project = \"REP\" AND labels = \"pr-" ++ toString n ++ "\"") 1 ::
           (moveToStatus o issue.key "Merged_PR").1,
         (moveToStatus o issue.key "Merged_PR").2)) := by
  have hcalls := findPRIssue_calls o r n
  constructor
  · intro e he
    unfold MovePRToMerged
    rcases hf : FindPRIssue o r n with ⟨fc, fr⟩
    rw [hf] at hcalls he
    simp only at hcalls he
    subst hcalls
    rw [he]
  · intro issue he
    unfold MovePRToMerged
    rcases hf : FindPRIssue o r n with ⟨fc, fr⟩
    rw [hf] at hcalls he
    simp only at hcalls he
    subst hcalls
    rw [he]
    simp

/-! ## Claim theorems -/

/-- C8: transitionIssue (moveToStatus) first fetches the set of
transitions currently available on the issue, then executes the first
transition whose destination status name equals the target name exactly
(plain String equality, hence case-sensitive); if no available transition
matches, it fails with the no-such-transition error and performs no
transition call. -/
theorem c8_moveToStatus_resolution (o : JiraOracle) (issueKey targetStatus : String) :
    (moveToStatus o issueKey targetStatus).1.head? =
      some (JiraCall.getTransitions issueKey) ∧
    (∀ e, o.getTransitions issueKey = Except.error e →
      moveToStatus o issueKey targetStatus =
        ([JiraCall.getTransitions issueKey], Except.error e)) ∧
    (∀ ts pre t post, o.getTransitions issueKey = Except.ok ts →
      ts = pre ++ t :: post →
      (∀ u ∈ pre, u.toName ≠ targetStatus) →
      t.toName = targetStatus →
      moveToStatus o issueKey targetStatus =
        ([JiraCall.getTransitions issueKey, JiraCall.doTransition issueKey t.id],
         o.doTransition issueKey t.id)) ∧
    (∀ ts, o.getTransitions issueKey = Except.ok ts →
      (∀ u ∈ ts, u.toName ≠ targetStatus) →
      moveToStatus o issueKey targetStatus =
        ([JiraCall.getTransitions issueKey],
         Except.error ("no transition found to status: " ++ targetStatus))) := by
  refine ⟨?_, ?_, ?_, ?_⟩
  · unfold moveToStatus
    cases o.getTransitions issueKey <;> rfl
  · intro e he
    simp [moveToStatus, he]
  · intro ts pre t post hok heq hpre ht
    simp only [moveToStatus, hok]
    rw [heq, moveToStatusLoop_first o issueKey targetStatus pre t post hpre ht]
  · intro ts hok hnone
    simp only [moveToStatus, hok]
    rw [moveToStatusLoop_none o issueKey targetStatus ts hnone]

/-- Witness for C8 at a concrete oracle: the first matching transition
(id 5, not 6) is the one executed. -/
theorem c8_moveToStatus_resolution_witness :
    moveToStatus jo8 "K-1" "Open_PR" =
      ([JiraCall.getTransitions "K-1", JiraCall.doTransition "K-1" "5"],
       Except.ok ()) := by
  have h := (c8_moveToStatus_resolution jo8 "K-1" "Open_PR").2.2.1
    [{ id := "4", toName := "Other" }, { id := "5", toName := "Open_PR" },
     { id := "6", toName := "Open_PR" }]
    [{ id := "4", toName := "Other" }] { id := "5", toName := "Open_PR" }
    [{ id := "6", toName := "Open_PR" }]
    rfl rfl (by decide) rfl
  exact h

/-- C10: the tracked-issue lookup ignores its repository-name argument:
for any two repository names and any PR number, FindPRIssue behaves
identically (same single search call over the fixed project REP and the
label pr-N) and MovePRToMerged resolves the same issue, so same-numbered
PRs of different repositories collide on one tracked issue. -/
theorem c10_lookup_ignores_repo (o : JiraOracle) (r1 r2 : String) (n : Int) :
    FindPRIssue o r1 n = FindPRIssue o r2 n ∧
    (FindPRIssue o r1 n).1 =
      [JiraCall.search ("project = \"REP\" AND labels = \"pr-" ++ toString n ++ "\"") 1] ∧
    MovePRToMerged o r1 n = MovePRToMerged o r2 n :=
  ⟨rfl, findPRIssue_calls o r1 n, rfl⟩

/-- C6: GetPullRequestDetails makes three sequential upstream calls (PR
metadata, file list, review list); it returns the assembled detail exactly
when all three succeed; the first failing call aborts the remaining calls
and fails the whole operation with the upstream error, in which case the
enclosing PR event handling stops after logging, with no tracker call, no
further GitHub call and no retry. -/
theorem c6_enrichment_all_or_nothing
    (env : Env) (payload : List (String × Json)) (f : PRFields)
    (gcs : List GhCall) (e : String)
    (hx : prExtract payload = some f)
    (hd : GetPullRequestDetails env.github f.repoName f.prNumber = (gcs, Except.error e)) :
    (∀ (o : GithubOracle) (repo : String) (n : Int),
      (exOk (GetPullRequestDetails o repo n).2 =
        (exOk (o.prGet repo n) && exOk (o.prListFiles repo n) &&
         exOk (o.prListReviews repo n))) ∧
      (∀ pr fs rs, o.prGet repo n = Except.ok pr →
        o.prListFiles repo n = Except.ok fs →
        o.prListReviews repo n = Except.ok rs →
        GetPullRequestDetails o repo n =
          ([GhCall.prGet repo n, GhCall.prListFiles repo n, GhCall.prListReviews repo n],
           Except.ok { pullRequest := pr, files := fs, reviews := rs })) ∧
      (∀ e1, o.prGet repo n = Except.error e1 →
        GetPullRequestDetails o repo n =
          ([GhCall.prGet repo n], Except.error ("failed to get PR details: " ++ e1))) ∧
      (∀ pr e2, o.prGet repo n = Except.ok pr →
        o.prListFiles repo n = Except.error e2 →
        GetPullRequestDetails o repo n =
          ([GhCall.prGet repo n, GhCall.prListFiles repo n],
           Except.error ("failed to get PR files: " ++ e2))) ∧
      (∀ pr fs e3, o.prGet repo n = Except.ok pr →
        o.prListFiles repo n = Except.ok fs →
        o.prListReviews repo n = Except.error e3 →
        GetPullRequestDetails o repo n =
          ([GhCall.prGet repo n, GhCall.prListFiles repo n, GhCall.prListReviews repo n],
           Except.error ("failed to get PR reviews: " ++ e3)))) ∧
    (∃ tr, handlePullRequestEventDetailed env payload = some tr ∧
       tr.jcalls = [] ∧ tr.gcalls = gcs ∧ tr.commits = [] ∧
       LogEntry.error ("Failed to get PR details: " ++ e) ∈ tr.logs) := by
  constructor
  · intro o repo n
    refine ⟨?_, ?_, ?_, ?_, ?_⟩
    · cases h1 : o.prGet repo n with
      | error e1 => simp [GetPullRequestDetails, h1, exOk]
      | ok pr =>
        cases h2 : o.prListFiles repo n with
        | error e2 => simp [GetPullRequestDetails, h1, h2, exOk]
        | ok fs =>
          cases h3 : o.prListReviews repo n with
          | error e3 => simp [GetPullRequestDetails, h1, h2, h3, exOk]
          | ok rs => simp [GetPullRequestDetails, h1, h2, h3, exOk]
    · intro pr fs rs h1 h2 h3
      simp [GetPullRequestDetails, h1, h2, h3]
    · intro e1 h1
      simp [GetPullRequestDetails, h1]
    · intro pr e2 h1 h2
      simp [GetPullRequestDetails, h1, h2]
    · intro pr fs e3 h1 h2 h3
      simp [GetPullRequestDetails, h1, h2, h3]
  · simp only [handlePullRequestEventDetailed, hx, hd]
    refine ⟨_, rfl, ?_, ?_, ?_, ?_⟩ <;> simp [logI, logE, gcallsT]

/-- Witness for C6: the PR-metadata endpoint fails, so handling PR 7 of
repo demo stops after one GitHub call, with no Jira call at all. -/
theorem c6_enrichment_all_or_nothing_witness :
    ∃ tr, handlePullRequestEventDetailed (mkEnv ghPRFail (some joHappy)) payloadOpened =
        some tr ∧
      tr.jcalls = [] ∧ tr.gcalls = [GhCall.prGet "demo" 7] ∧ tr.commits = [] ∧
      LogEntry.error "Failed to get PR details: failed to get PR details: boom" ∈ tr.logs := by
  have h := c6_enrichment_all_or_nothing (mkEnv ghPRFail (some joHappy)) payloadOpened
    { action := "opened", repoName := "demo", prNumber := 7, title := "Add feature",
      userName := "alice", sourceBranch := "feature", targetBranch := "main",
      prURL := "https://example.com/pr/7",
      prData := [("number", Json.num 7), ("title", Json.str "Add feature"),
                 ("user", Json.obj [("login", Json.str "alice")]),
                 ("head", Json.obj [("ref", Json.str "feature")]),
                 ("base", Json.obj [("ref", Json.str "main")]),
                 ("html_url", Json.str "https://example.com/pr/7")] }
    [GhCall.prGet "demo" 7] "failed to get PR details: boom" rfl rfl
  exact h.2

/-- C5: a pull_request payload with action=closed and merged=false makes
no tracker call at all on the repository-scope path (no creation, no
search, no transition), whatever the enrichment outcome and whether a
Jira client is configured. -/
theorem c5_closed_unmerged_no_tracker (env : Env) (payload : List (String × Json))
    (f : PRFields)
    (hx : prExtract payload = some f)
    (ha : f.action = "closed")
    (hm : asBoolD (lookupJ f.prData "merged") = false) :
    ∃ tr, handlePullRequestEventDetailed env payload = some tr ∧ tr.jcalls = [] := by
  simp only [handlePullRequestEventDetailed, hx]
  rcases hgd : GetPullRequestDetails env.github f.repoName f.prNumber with ⟨gc, r⟩
  cases r with
  | error e => exact ⟨_, rfl, by simp [logI, logE, gcallsT]⟩
  | ok prd =>
    cases hj : env.jira with
    | none => exact ⟨_, rfl, by simp [logI, logsT, gcallsT]⟩
    | some jo =>
      refine ⟨_, rfl, ?_⟩
      simp [logI, logsT, gcallsT, ha, hm]

/-- Witness for C5 at a concrete closed-unmerged payload: the Jira trace
is empty even though a Jira client is configured and enrichment works. -/
theorem c5_closed_unmerged_no_tracker_witness :
    ∃ tr, handlePullRequestEventDetailed (mkEnv ghOkEmpty (some joHappy))
        payloadClosedUnmerged = some tr ∧ tr.jcalls = [] :=
  c5_closed_unmerged_no_tracker (mkEnv ghOkEmpty (some joHappy)) payloadClosedUnmerged
    { action := "closed", repoName := "demo", prNumber := 7, title := "Add feature",
      userName := "", sourceBranch := "", targetBranch := "", prURL := "",
      prData := [("number", Json.num 7), ("merged", Json.bool false),
                 ("title", Json.str "Add feature")] }
    rfl rfl rfl

/-- C2: for a pull_request payload with action=closed and merged=true on
the repository-scope path (Jira configured, enrichment succeeding), the
synchronization calls find-by-label with pr-N, transitions to Merged_PR
only if the find succeeds, makes no transition call and logs the failure
when the find errors or matches nothing, and the webhook sender still
receives the 200 success response. -/
theorem c2_merged_find_then_transition
    (env : Env) (payload : List (String × Json)) (f : PRFields) (jo : JiraOracle)
    (gcs : List GhCall) (prd : PRDetails) (req : Request)
    (hj : env.jira = some jo)
    (hx : prExtract payload = some f)
    (ha : f.action = "closed")
    (hm : asBoolD (lookupJ f.prData "merged") = true)
    (hd : GetPullRequestDetails env.github f.repoName f.prNumber = (gcs, Except.ok prd))
    (hb : req.body = Except.ok (some (Json.obj payload)))
    (he : req.eventType = "pull_request") :
    ∃ tr, handlePullRequestEventDetailed env payload = some tr ∧
      tr.jcalls = (MovePRToMerged jo f.repoName f.prNumber).1 ∧
      tr.jcalls.head? = some (JiraCall.search
        ("project = \"REP\" AND labels = \"pr-" ++ toString f.prNumber ++ "\"") 1) ∧
      (∀ e, (FindPRIssue jo f.repoName f.prNumber).2 = Except.error e →
        getTransCount tr.jcalls = 0 ∧ doTransCount tr.jcalls = 0 ∧
        LogEntry.error ("Failed to move PR to merged: " ++ e) ∈ tr.logs) ∧
      (∀ issue, (FindPRIssue jo f.repoName f.prNumber).2 = Except.ok issue →
        tr.jcalls = JiraCall.search
            ("project = \"REP\" AND labels = \"pr-" ++ toString f.prNumber ++ "\"") 1 ::
          (moveToStatus jo issue.key "Merged_PR").1) ∧
      (HandleRepoWebhook env req).1 =
        some (200, "Repository webhook processed successfully") := by
  have hmove := movePRToMerged_eq jo f.repoName f.prNumber
  have hresp : (HandleRepoWebhook env req).1 =
      some (200, "Repository webhook processed successfully") := by
    simp only [HandleRepoWebhook, hb, he, unmarshalMap]
    have hsome : handlePullRequestEventDetailed env payload ≠ none := by
      rw [Ne, handlePRDetailed_none_iff, hx]
      simp
    rcases h : handlePullRequestEventDetailed env payload with _ | t
    · exact absurd h hsome
    · simp [h]
  simp only [handlePullRequestEventDetailed, hx, hd, hj, ha, hm]
  simp only [beq_self_eq_true, if_pos, show ("closed" == "opened") = false by rfl,
    Bool.false_eq_true, if_false, if_true]
  refine ⟨_, rfl, ?_, ?_, ?_, ?_, hresp⟩
  all_goals
    simp only [handlePRMerged, prInfoOf]
  · rcases hmv : MovePRToMerged jo f.repoName f.prNumber with ⟨jc, r⟩
    cases r <;> simp [logI, logE, logsT, gcallsT, jcallsT]
  · rcases hfr : (FindPRIssue jo f.repoName f.prNumber).2 with e | issue
    · rw [hmove.1 e hfr]
      simp [logI, logE, logsT, gcallsT, jcallsT]
    · rw [hmove.2 issue hfr]
      rcases h2 : (moveToStatus jo issue.key "Merged_PR").2 with e2 | u <;>
        simp [logI, logE, logsT, gcallsT, jcallsT]
  · intro e hfr
    rw [hmove.1 e hfr]
    refine ⟨?_, ?_, ?_⟩ <;>
      simp [logI, logE, logsT, gcallsT, jcallsT, getTransCount, doTransCount,
        List.countP_cons, logDetailedPR_no_err]
  · intro issue hfr
    rw [hmove.2 issue hfr]
    rcases h2 : (moveToStatus jo issue.key "Merged_PR").2 with e2 | u <;>
      simp [logI, logE, logsT, gcallsT, jcallsT]

/-- Witness for C2 at a concrete merged payload and oracles on which the
find succeeds, showing the search-then-transition call sequence and the
200 response. -/
theorem c2_merged_find_then_transition_witness :
    ∃ tr, handlePullRequestEventDetailed (mkEnv ghOkEmpty (some joHappy))
        payloadClosedMerged = some tr ∧
      tr.jcalls = (MovePRToMerged joHappy "demo" 7).1 ∧
      tr.jcalls.head? = some (JiraCall.search
        ("project = \"REP\" AND labels = \"pr-" ++ toString (7 : Int) ++ "\"") 1) ∧
      (∀ e, (FindPRIssue joHappy "demo" 7).2 = Except.error e →
        getTransCount tr.jcalls = 0 ∧ doTransCount tr.jcalls = 0 ∧
        LogEntry.error ("Failed to move PR to merged: " ++ e) ∈ tr.logs) ∧
      (∀ issue, (FindPRIssue joHappy "demo" 7).2 = Except.ok issue →
        tr.jcalls = JiraCall.search
            ("project = \"REP\" AND labels = \"pr-" ++ toString (7 : Int) ++ "\"") 1 ::
          (moveToStatus joHappy issue.key "Merged_PR").1) ∧
      (HandleRepoWebhook (mkEnv ghOkEmpty (some joHappy))
          (reqOf (Json.obj payloadClosedMerged) "pull_request")).1 =
        some (200, "Repository webhook processed successfully") := by
  exact c2_merged_find_then_transition (mkEnv ghOkEmpty (some joHappy))
    payloadClosedMerged
    { action := "closed", repoName := "demo", prNumber := 7, title := "Add feature",
      userName := "", sourceBranch := "", targetBranch := "", prURL := "",
      prData := [("number", Json.num 7), ("merged", Json.bool true),
                 ("title", Json.str "Add feature")] }
    joHappy
    [GhCall.prGet "demo" 7, GhCall.prListFiles "demo" 7, GhCall.prListReviews "demo" 7]
    { pullRequest := {}, files := [], reviews := [] }
    (reqOf (Json.obj payloadClosedMerged) "pull_request")
    rfl rfl rfl rfl rfl rfl rfl

/-- C1 counterexample: on a concrete opened-PR payload whose workflow
offers no transition to Open_PR, the issue is created once and exactly one
transition attempt is made; the attempt fails (no transition is executed),
yet the handler emits no error-level log line at all, refuting the part of
the claim that says the transition failure is logged. -/
theorem c1_open_transition_failure_not_logged :
    (handlePullRequestEventDetailed (mkEnv ghOkEmpty (some joNoOpenPR))
        payloadOpened).map (fun tr => createCount tr.jcalls) = some 1 ∧
    (handlePullRequestEventDetailed (mkEnv ghOkEmpty (some joNoOpenPR))
        payloadOpened).map (fun tr => getTransCount tr.jcalls) = some 1 ∧
    (handlePullRequestEventDetailed (mkEnv ghOkEmpty (some joNoOpenPR))
        payloadOpened).map (fun tr => doTransCount tr.jcalls) = some 0 ∧
    exOk (moveToStatus joNoOpenPR "REP-1" "Open_PR").2 = false ∧
    (handlePullRequestEventDetailed (mkEnv ghOkEmpty (some joNoOpenPR))
        payloadOpened).map (fun tr => tr.logs.any LogEntry.isErr) = some false := by
  refine ⟨rfl, rfl, rfl, rfl, rfl⟩

/-- C1 (amended): for an opened pull_request on the repository-scope path
(Jira configured, enrichment succeeding, creation succeeding), the
synchronization calls create-issue exactly once, with the labels of the
created issue containing pr-N, then attempts exactly one status
transition to Open_PR; if that attempt fails the failure is silently
discarded (nothing error-level is logged) and the created issue is left
as-is, with the handler still logging the created key. -/
theorem c1_opened_create_and_single_transition
    (env : Env) (payload : List (String × Json)) (f : PRFields) (jo : JiraOracle)
    (gcs : List GhCall) (prd : PRDetails) (issue : Issue)
    (hj : env.jira = some jo)
    (hx : prExtract payload = some f)
    (ha : f.action = "opened")
    (hd : GetPullRequestDetails env.github f.repoName f.prNumber = (gcs, Except.ok prd))
    (hc : jo.createIssue (issueDataOf env.nowFmt (prInfoOf f prd)) = Except.ok issue) :
    ∃ tr, handlePullRequestEventDetailed env payload = some tr ∧
      tr.jcalls = JiraCall.create (issueDataOf env.nowFmt (prInfoOf f prd)) ::
        (moveToStatus jo issue.key "Open_PR").1 ∧
      createCount tr.jcalls = 1 ∧
      ("pr-" ++ toString f.prNumber) ∈ (issueDataOf env.nowFmt (prInfoOf f prd)).labels ∧
      getTransCount tr.jcalls = 1 ∧
      LogEntry.info ("Created Jira issue: " ++ issue.key ++ " for PR #" ++
        toString f.prNumber ++ " in Open_PR status") ∈ tr.logs ∧
      tr.logs.any LogEntry.isErr = false := by
  simp only [handlePullRequestEventDetailed, hx, hd, hj, ha]
  simp only [handlePROpened, CreatePRIssue, hc, beq_self_eq_true, if_true]
  refine ⟨_, rfl, ?_, ?_, ?_, ?_, ?_, ?_⟩
  · simp [logI, logE, logsT, gcallsT, jcallsT, prInfoOf]
  · have hm1 := createCount_moveToStatus jo issue.key "Open_PR"
    simp only [createCount] at hm1
    simp [logI, logE, logsT, gcallsT, jcallsT, prInfoOf, createCount,
      List.countP_cons, List.countP_append, hm1]
  · simp [issueDataOf, prInfoOf]
  · have hm2 := getTransCount_moveToStatus jo issue.key "Open_PR"
    simp only [getTransCount] at hm2
    simp [logI, logE, logsT, gcallsT, jcallsT, prInfoOf, getTransCount,
      List.countP_cons, List.countP_append, hm2]
  · simp [logI, logE, logsT, gcallsT, jcallsT, prInfoOf]
  · simp [logI, logE, logsT, gcallsT, jcallsT, prInfoOf, LogEntry.isErr,
      logDetailedPR_no_err]

/-- Witness for C1 (amended) on oracles where everything succeeds. -/
theorem c1_opened_create_and_single_transition_witness :
    ∃ tr, handlePullRequestEventDetailed (mkEnv ghOkEmpty (some joHappy))
        payloadOpened = some tr ∧
      tr.jcalls = JiraCall.create
          (issueDataOf "2024-05-01 10:00:00" (prInfoOf fOpened prdEmpty)) ::
        (moveToStatus joHappy "REP-1" "Open_PR").1 ∧
      createCount tr.jcalls = 1 ∧
      ("pr-" ++ toString (7 : Int)) ∈
        (issueDataOf "2024-05-01 10:00:00" (prInfoOf fOpened prdEmpty)).labels ∧
      getTransCount tr.jcalls = 1 ∧
      LogEntry.info ("Created Jira issue: " ++ "REP-1" ++ " for PR #" ++
        toString (7 : Int) ++ " in Open_PR status") ∈ tr.logs ∧
      tr.logs.any LogEntry.isErr = false :=
  c1_opened_create_and_single_transition (mkEnv ghOkEmpty (some joHappy))
    payloadOpened fOpened joHappy
    [GhCall.prGet "demo" 7, GhCall.prListFiles "demo" 7, GhCall.prListReviews "demo" 7]
    prdEmpty { key := "REP-1" } rfl rfl rfl rfl rfl

/-- handlePROpened unconditionally attempts exactly one creation and never
searches for an existing issue first. -/
theorem handlePROpened_counts (env : Env) (jo : JiraOracle) (prInfo : PRIssueInfo) :
    createCount (handlePROpened env jo prInfo).jcalls = 1 ∧
    searchCount (handlePROpened env jo prInfo).jcalls = 0 := by
  unfold handlePROpened CreatePRIssue
  cases hc : jo.createIssue (issueDataOf env.nowFmt prInfo) with
  | error e =>
    simp [hc, logI, logE, jcallsT, createCount, searchCount, List.countP_cons]
  | ok issue =>
    have h1 := createCount_moveToStatus jo issue.key "Open_PR"
    have h2 := searchCount_moveToStatus jo issue.key "Open_PR"
    simp only [createCount, searchCount] at h1 h2
    rw [List.countP_eq_zero] at h1 h2
    simp [hc, logI, jcallsT, createCount, searchCount, List.countP_cons,
      List.countP_append, h1, h2]
    refine ⟨fun a ha => ?_, fun a ha => ?_⟩
    · simpa using h1 a ha
    · simpa using h2 a ha

/-- C9: handling of opened pull_request events is not idempotent: one
structurally valid delivery makes exactly one create-issue call with no
deduplicating search beforehand, so delivering the same payload twice
makes two create-issue calls. -/
theorem c9_opened_not_idempotent
    (env : Env) (req : Request) (payload : List (String × Json)) (f : PRFields)
    (jo : JiraOracle) (gcs : List GhCall) (prd : PRDetails)
    (hj : env.jira = some jo)
    (hb : req.body = Except.ok (some (Json.obj payload)))
    (he : req.eventType = "pull_request")
    (hx : prExtract payload = some f)
    (ha : f.action = "opened")
    (hd : GetPullRequestDetails env.github f.repoName f.prNumber = (gcs, Except.ok prd)) :
    ∃ tr, HandleRepoWebhook env req =
        (some (200, "Repository webhook processed successfully"), tr) ∧
      createCount tr.jcalls = 1 ∧
      searchCount tr.jcalls = 0 ∧
      createCount ((HandleRepoWebhook env req).2.jcalls ++
        (HandleRepoWebhook env req).2.jcalls) = 2 := by
  have hopen := handlePROpened_counts env jo (prInfoOf f prd)
  obtain ⟨tr, htr, hjc⟩ : ∃ tr, handlePullRequestEventDetailed env payload = some tr ∧
      tr.jcalls = (handlePROpened env jo (prInfoOf f prd)).jcalls := by
    simp only [handlePullRequestEventDetailed, hx, hd, hj, ha, beq_self_eq_true, if_true]
    exact ⟨_, rfl, by simp [logI, logsT, gcallsT]⟩
  have hweb : HandleRepoWebhook env req =
      (some (200, "Repository webhook processed successfully"), tr) := by
    simp only [HandleRepoWebhook, hb, he, unmarshalMap, htr]
    simp
  have h1 : createCount tr.jcalls = 1 := by rw [hjc]; exact hopen.1
  refine ⟨tr, hweb, h1, ?_, ?_⟩
  · rw [hjc]; exact hopen.2
  · rw [hweb]
    simp only [createCount] at h1 ⊢
    rw [List.countP_append, h1]

/-- Witness for C9: both deliveries of the concrete opened payload are
the same pure computation, and their combined trace creates twice. -/
theorem c9_opened_not_idempotent_witness :
    ∃ tr, HandleRepoWebhook (mkEnv ghOkEmpty (some joHappy))
        (reqOf (Json.obj payloadOpened) "pull_request") =
        (some (200, "Repository webhook processed successfully"), tr) ∧
      createCount tr.jcalls = 1 ∧
      searchCount tr.jcalls = 0 ∧
      createCount ((HandleRepoWebhook (mkEnv ghOkEmpty (some joHappy))
          (reqOf (Json.obj payloadOpened) "pull_request")).2.jcalls ++
        (HandleRepoWebhook (mkEnv ghOkEmpty (some joHappy))
          (reqOf (Json.obj payloadOpened) "pull_request")).2.jcalls) = 2 :=
  c9_opened_not_idempotent (mkEnv ghOkEmpty (some joHappy))
    (reqOf (Json.obj payloadOpened) "pull_request") payloadOpened fOpened joHappy
    [GhCall.prGet "demo" 7, GhCall.prListFiles "demo" 7, GhCall.prListReviews "demo" 7]
    prdEmpty rfl rfl rfl rfl rfl rfl

/-- C7: in the per-commit loop of detailed push handling, a failed diff
fetch is non-fatal: the commit record is still logged, with the literal
placeholder string as its diff value and the filesChanged, additions and
deletions taken from the separate successful commit-detail call; whereas a
failed commit-detail call skips exactly that commit (no record, no diff
call for it) and processing continues with the next commit in array
order. -/
theorem c7_diff_failure_nonfatal
    (env : Env) (repo branch : String) (commitData : List (String × Json))
    (rest : List Json) (i : Nat) (sha : String)
    (hs : asStringD (lookupJ commitData "id") = sha) :
    (∀ d e, env.github.getCommitDetails repo sha = Except.ok d →
      env.github.getFileDiff repo sha = Except.error e →
      (pushLoop env repo branch (Json.obj commitData :: rest) i).commits =
        (i + 1,
         { sha := sha
           message := asStringD (lookupJ commitData "message")
           author := asStringD (lookupJ (asObjD (lookupJ commitData "author")) "name")
           authorEmail := asStringD (lookupJ (asObjD (lookupJ commitData "author")) "email")
           date := env.nowRFC
           filesChanged := d.files.length
           additions := d.stats.additions
           deletions := d.stats.deletions
           repository := repo
           branch := branch
           diffContent := "Diff unavailable" }) ::
          (pushLoop env repo branch rest (i + 1)).commits ∧
      LogEntry.error ("Failed to get file diff: " ++ e) ∈
        (pushLoop env repo branch (Json.obj commitData :: rest) i).logs) ∧
    (∀ e, env.github.getCommitDetails repo sha = Except.error e →
      (pushLoop env repo branch (Json.obj commitData :: rest) i).commits =
        (pushLoop env repo branch rest (i + 1)).commits ∧
      (pushLoop env repo branch (Json.obj commitData :: rest) i).gcalls =
        GhCall.getCommitDetails repo sha ::
          (pushLoop env repo branch rest (i + 1)).gcalls ∧
      LogEntry.error ("Failed to get commit details: " ++ e) ∈
        (pushLoop env repo branch (Json.obj commitData :: rest) i).logs) := by
  constructor
  · intro d e hd he
    simp only [pushLoop, hs, hd, he]
    constructor
    · simp [gcallT, logE, recordCommit]
    · simp [gcallT, logE, recordCommit, logDetailedCommit]
  · intro e hd
    simp only [pushLoop, hs, hd]
    refine ⟨?_, ?_, ?_⟩
    · simp [gcallT, logE]
    · simp [gcallT, logE]
    · simp [gcallT, logE]

/-- Witness for C7: commit abc123 of a one-commit push where the detail
call succeeds (2 files, 10 additions, 2 deletions) and the diff call
fails; the record is
logged with the placeholder and the real statistics. -/
theorem c7_diff_failure_nonfatal_witness :
    (pushLoop (mkEnv ghDiffFail none) "demo" "main"
        [Json.obj [("id", Json.str "abc123"), ("message", Json.str "fix"),
                   ("author", Json.obj [("name", Json.str "alice"),
                                        ("email", Json.str "a@x.io")])]] 0).commits =
      [(1, { sha := "abc123", message := "fix", author := "alice",
             authorEmail := "a@x.io", date := "2024-05-01T10:00:00Z",
             filesChanged := 2, additions := 10, deletions := 2,
             repository := "demo", branch := "main",
             diffContent := "Diff unavailable" })] ∧
    LogEntry.error ("Failed to get file diff: " ++ "rate limited") ∈
      (pushLoop (mkEnv ghDiffFail none) "demo" "main"
        [Json.obj [("id", Json.str "abc123"), ("message", Json.str "fix"),
                   ("author", Json.obj [("name", Json.str "alice"),
                                        ("email", Json.str "a@x.io")])]] 0).logs := by
  have h := (c7_diff_failure_nonfatal (mkEnv ghDiffFail none) "demo" "main"
    [("id", Json.str "abc123"), ("message", Json.str "fix"),
     ("author", Json.obj [("name", Json.str "alice"), ("email", Json.str "a@x.io")])]
    [] 0 "abc123" rfl).1
    { files := [{ filename := "a.go" }, { filename := "b.go" }],
      stats := { additions := 10, deletions := 2 } }
    "rate limited" rfl rfl
  exact ⟨h.1, h.2⟩

/-- C3: the repository-scope pull_request handler crashes on a payload
whose pull_request object (and hence its number field) is missing: the
unchecked float64 assertion panics before anything is handled, and the
entry point writes no response at all; by contrast the organization-scope
handlers degrade gracefully to zero values on the same payload. -/
theorem c3_missing_number_panics :
    handlePullRequestEventDetailed (mkEnv ghOkEmpty (some joHappy)) payloadNoPR = none ∧
    (HandleRepoWebhook (mkEnv ghOkEmpty (some joHappy))
        (reqOf (Json.obj payloadNoPR) "pull_request")).1 = none ∧
    handlePullRequestEvent payloadNoPR = logI "PR event: opened - #0: " ∧
    handlePushEvent payloadNoPR = logI "Push event detected in repo:  by " := by
  refine ⟨rfl, rfl, rfl, rfl⟩

/-- C4 counterexample: a request whose body is perfectly valid JSON (the
array [1]) with the event header present is still answered 400 by both
endpoints, because json.Unmarshal into a map rejects any non-object top
level; this refutes the claimed only-if condition for 400. -/
theorem c4_valid_json_array_rejected :
    (HandleRepoWebhook (mkEnv ghOkEmpty none)
        { body := Except.ok (some (Json.arr [Json.num 1])), eventType := "push" }).1 =
      some (400, "Invalid JSON payload\n") ∧
    (HandleRepoWebhook (mkEnv ghOkEmpty none)
        { body := Except.ok (some (Json.arr [Json.num 1])), eventType := "push" }).2.gcalls = [] ∧
    (HandleRepoWebhook (mkEnv ghOkEmpty none)
        { body := Except.ok (some (Json.arr [Json.num 1])), eventType := "push" }).2.jcalls = [] ∧
    (HandleOrgWebhook (mkEnv ghOkEmpty none)
        { body := Except.ok (some (Json.arr [Json.num 1])), eventType := "push" }).1 =
      some (400, "Invalid JSON payload\n") := by
  refine ⟨rfl, rfl, rfl, rfl⟩

/-- C4 (amended): both endpoints answer 400, dispatching nothing and
calling no upstream, exactly when the request is structurally invalid
(body unreadable, event header absent, or body failing to unmarshal as a
JSON object, which includes valid JSON whose top level is not an object);
a structurally valid request is answered 200 with the fixed confirmation
body regardless of downstream outcomes, except that the repository-scope
entry writes no response at all exactly when a pull_request dispatch
panics on a payload without a numeric pull_request.number. -/
theorem c4_response_law (env : Env) (req : Request) :
    (badReq req = true →
      Option.map Prod.fst (HandleOrgWebhook env req).1 = some 400 ∧
      (HandleOrgWebhook env req).2.gcalls = [] ∧
      (HandleOrgWebhook env req).2.jcalls = [] ∧
      Option.map Prod.fst (HandleRepoWebhook env req).1 = some 400 ∧
      (HandleRepoWebhook env req).2.gcalls = [] ∧
      (HandleRepoWebhook env req).2.jcalls = []) ∧
    (badReq req = false →
      (HandleOrgWebhook env req).1 =
        some (200, "Organization webhook processed successfully")) ∧
    (badReq req = false →
      (HandleRepoWebhook env req).1 =
        some (200, "Repository webhook processed successfully") ∨
      (HandleRepoWebhook env req).1 = none) ∧
    ((HandleRepoWebhook env req).1 = none ↔
      (badReq req = false ∧ req.eventType = "pull_request" ∧
       ∃ payload, parsedBody req = Except.ok payload ∧ prExtract payload = none)) ∧
    (Option.map Prod.fst (HandleOrgWebhook env req).1 = some 400 ↔ badReq req = true) ∧
    (Option.map Prod.fst (HandleRepoWebhook env req).1 = some 400 ↔ badReq req = true) := by
  rcases hb : req.body with e | parse
  · have hbad : badReq req = true := by simp [badReq, hb]
    have ho : (HandleOrgWebhook env req).1 = some (400, "Invalid request body\n") := by
      simp [HandleOrgWebhook, hb]
    have hr : (HandleRepoWebhook env req).1 = some (400, "Invalid request body\n") := by
      simp [HandleRepoWebhook, hb]
    refine ⟨fun _ => ⟨?_, ?_, ?_, ?_, ?_, ?_⟩, fun hf => ?_, fun hf => ?_, ?_, ?_, ?_⟩
    · simp [ho]
    · simp [HandleOrgWebhook, hb, logE]
    · simp [HandleOrgWebhook, hb, logE]
    · simp [hr]
    · simp [HandleRepoWebhook, hb, logE]
    · simp [HandleRepoWebhook, hb, logE]
    · rw [hbad] at hf; cases hf
    · rw [hbad] at hf; cases hf
    · simp [hr, hbad]
    · simp [ho, hbad]
    · simp [hr, hbad]
  · cases hev : req.eventType == "" with
    | true =>
      have hbad : badReq req = true := by simp [badReq, hb, hev]
      have ho : (HandleOrgWebhook env req).1 = some (400, "Missing event type\n") := by
        simp [HandleOrgWebhook, hb, hev]
      have hr : (HandleRepoWebhook env req).1 = some (400, "Missing event type\n") := by
        simp [HandleRepoWebhook, hb, hev]
      refine ⟨fun _ => ⟨?_, ?_, ?_, ?_, ?_, ?_⟩, fun hf => ?_, fun hf => ?_, ?_, ?_, ?_⟩
      · simp [ho]
      · simp [HandleOrgWebhook, hb, hev, logE]
      · simp [HandleOrgWebhook, hb, hev, logE]
      · simp [hr]
      · simp [HandleRepoWebhook, hb, hev, logE]
      · simp [HandleRepoWebhook, hb, hev, logE]
      · rw [hbad] at hf; cases hf
      · rw [hbad] at hf; cases hf
      · simp [hr, hbad]
      · simp [ho, hbad]
      · simp [hr, hbad]
    | false =>
      cases hum : unmarshalMap parse with
      | error e2 =>
        have hbad : badReq req = true := by simp [badReq, hb, hev, hum]
        have ho : (HandleOrgWebhook env req).1 = some (400, "Invalid JSON payload\n") := by
          simp [HandleOrgWebhook, hb, hev, hum]
        have hr : (HandleRepoWebhook env req).1 = some (400, "Invalid JSON payload\n") := by
          simp [HandleRepoWebhook, hb, hev, hum]
        refine ⟨fun _ => ⟨?_, ?_, ?_, ?_, ?_, ?_⟩, fun hf => ?_, fun hf => ?_, ?_, ?_, ?_⟩
        · simp [ho]
        · simp [HandleOrgWebhook, hb, hev, hum, logE]
        · simp [HandleOrgWebhook, hb, hev, hum, logE]
        · simp [hr]
        · simp [HandleRepoWebhook, hb, hev, hum, logE]
        · simp [HandleRepoWebhook, hb, hev, hum, logE]
        · rw [hbad] at hf; cases hf
        · rw [hbad] at hf; cases hf
        · simp [hr, hbad]
        · simp [ho, hbad]
        · simp [hr, hbad]
      | ok payload =>
        have hbad : badReq req = false := by simp [badReq, hb, hev, hum]
        have hpb : parsedBody req = Except.ok payload := by simp [parsedBody, hb, hum]
        have ho : (HandleOrgWebhook env req).1 =
            some (200, "Organization webhook processed successfully") := by
          simp [HandleOrgWebhook, hb, hev, hum]
        have hr23 : (HandleRepoWebhook env req).1 =
            some (200, "Repository webhook processed successfully") ∨
            ((HandleRepoWebhook env req).1 = none ∧ req.eventType = "pull_request" ∧
             prExtract payload = none) := by
          simp only [HandleRepoWebhook, hb, hev, hum]
          by_cases h1 : req.eventType = "push"
          · left; simp [h1]
          · by_cases h2 : req.eventType = "pull_request"
            · rcases ht : handlePullRequestEventDetailed env payload with _ | t
              · right
                rw [handlePRDetailed_none_iff] at ht
                exact ⟨by simp [h1, h2], h2, ht⟩
              · left; simp [h1, h2, ht]
            · by_cases h3 : req.eventType = "ping"
              · left; simp [h1, h2, h3]
              · left; simp [h1, h2, h3]
        refine ⟨fun hf => ?_, fun _ => ho, fun _ => ?_, ?_, ?_, ?_⟩
        · rw [hbad] at hf; cases hf
        · rcases hr23 with h | ⟨h, _, _⟩
          · exact Or.inl h
          · exact Or.inr h
        · constructor
          · intro hnone
            rcases hr23 with h | ⟨h, h2, hx⟩
            · rw [h] at hnone; cases hnone
            · exact ⟨hbad, h2, payload, hpb, hx⟩
          · rintro ⟨hbad2, hev2, payload2, hp2, hxn⟩
            have hpp : payload2 = payload := by
              rw [hpb] at hp2
              cases hp2
              rfl
            subst hpp
            have hn : handlePullRequestEventDetailed env payload2 = none :=
              (handlePRDetailed_none_iff env payload2).mpr hxn
            simp [HandleRepoWebhook, hb, hev, hum, hev2, hn]
        · rw [ho]; simp [hbad]
        · rcases hr23 with h | ⟨h, _, _⟩ <;> rw [h] <;> simp [hbad]

/-- Witness for C4 (amended) at a concrete structurally valid push
request: both endpoints confirm with 200. -/
theorem c4_response_law_witness :
    (HandleOrgWebhook (mkEnv ghOkEmpty none) (reqOf (Json.obj payloadPush) "push")).1 =
      some (200, "Organization webhook processed successfully") ∧
    ((HandleRepoWebhook (mkEnv ghOkEmpty none) (reqOf (Json.obj payloadPush) "push")).1 =
       some (200, "Repository webhook processed successfully") ∨
     (HandleRepoWebhook (mkEnv ghOkEmpty none) (reqOf (Json.obj payloadPush) "push")).1 =
       none) := by
  have h := c4_response_law (mkEnv ghOkEmpty none) (reqOf (Json.obj payloadPush) "push")
  exact ⟨h.2.1 rfl, h.2.2.1 rfl⟩

end Integration
